import Mathlib

/-
Shallow embedding of the MegaBeer brewing-calculation library.
Python floats are modelled as real numbers; numpy scalar operations become
real arithmetic; scipy.integrate.quad over a bounded interval becomes the
interval integral.  Each definition is translated from the named source
function.
-/

namespace MegaBeer

noncomputable section

open Real

namespace NewtonCooling

/-- From src/MegaBeer/science/heat.py, NewtonCooling.T:
returns T0 + (T0 - Ti) * np.exp(-t / tau). -/
def T (t T0 Ti tau : ℝ) : ℝ :=
  T0 + (T0 - Ti) * Real.exp (-t / tau)

end NewtonCooling

namespace RateEquations

/-- From src/MegaBeer/science/reaction.py, RateEquations.order_n:
if n == 1 the result is t ↦ A0 * exp(-k*t); otherwise g = 1 - n and the
result is t ↦ (A0**g - g*k*t)**(1/g), real powers modelled by rpow. -/
def order_n (n : ℤ) (k A0 : ℝ) : ℝ → ℝ :=
  if n = 1 then fun t => A0 * Real.exp (-k * t)
  else
    fun t => (A0 ^ ((1 : ℝ) - (n : ℝ)) - ((1 : ℝ) - (n : ℝ)) * k * t) ^
      ((1 : ℝ) / ((1 : ℝ) - (n : ℝ)))

/-- From src/MegaBeer/science/reaction.py, RateEquations.order_zero. -/
def order_zero (k A0 : ℝ) : ℝ → ℝ :=
  order_n 0 k A0

/-- From src/MegaBeer/science/reaction.py, RateEquations.order_one. -/
def order_one (k A0 : ℝ) : ℝ → ℝ :=
  order_n 1 k A0

/-- From src/MegaBeer/science/reaction.py, RateEquations.order_two. -/
def order_two (k A0 : ℝ) : ℝ → ℝ :=
  order_n 2 k A0

end RateEquations

/-- From src/MegaBeer/science/reaction.py, arrhenius:
R = 8.3145; returns A * np.exp(-E0 / (T + 272.15) / R). -/
def arrhenius (T E0 A : ℝ) : ℝ :=
  let R : ℝ := 8.3145
  A * Real.exp (-E0 / (T + 272.15) / R)

namespace GravityFactor

/-- From src/MegaBeer/calculation/hops/gravity_factor.py, rager:
the value u = 1 / (1 + 5 * (G - 1.05)) computed before branching. -/
def rager_u (G : ℝ) : ℝ :=
  1 / (1 + 5 * (G - 1.05))

/-- From src/MegaBeer/calculation/hops/gravity_factor.py, rager, scalar path:
returns 1.0 when G < 1.05 and u otherwise. -/
def rager (G : ℝ) : ℝ :=
  if G < 1.05 then 1 else rager_u G

/-- From src/MegaBeer/calculation/hops/gravity_factor.py, rager, array path:
np.where(G >= 1.05, u, 1.) taken elementwise at one entry G. -/
def rager_arr (G : ℝ) : ℝ :=
  if G ≥ 1.05 then rager_u G else 1

end GravityFactor

namespace TinsethTime

/-- From src/MegaBeer/calculation/hops/iso_time.py, TinsethTime.tinseth:
returns the function t ↦ max_u * (1 - exp(-r * t)). -/
def tinseth (max_u r : ℝ) : ℝ → ℝ :=
  fun t => max_u * (1 - Real.exp (-r * t))

/-- From src/MegaBeer/calculation/hops/iso_time.py, TinsethTime.tinseth_rate:
returns the function t ↦ max_u * r * exp(-r * t). -/
def tinseth_rate (max_u r : ℝ) : ℝ → ℝ :=
  fun t => max_u * r * Real.exp (-r * t)

end TinsethTime

/-- Python runtime values, enough to model the dynamic type check
`type(b) is float` in mIBU.change_b. -/
inductive PyVal where
  | pyFloat : ℝ → PyVal
  | pyInt : ℤ → PyVal
  | pyStr : String → PyVal
  | pyNone : PyVal

/-- The `type(b) is float` check of mIBU.change_b. -/
def isFloat : PyVal → Bool
  | PyVal.pyFloat _ => true
  | _ => false

/-- Python exceptions raised inside the embedded code: ValueError from
mIBU.change_b (the spec's InvalidInput error kind), and AttributeError from
an attribute access on a value that lacks the attribute. -/
inductive PyErr where
  | invalidInput : PyErr
  | attributeError : PyErr

/-- From src/MegaBeer/calculation/hops/iso_time.py, class mIBU: its instance
fields surface_area, open_area, volume, b, max_u, r. -/
structure mIBU where
  surface_area : ℝ
  open_area : ℝ
  volume : ℝ
  b : ℝ
  max_u : ℝ
  r : ℝ

/-- The value bound to the self parameter of an unbound instance-method
call mIBU.mIBU_rate_correction(arg1, arg2): either a genuine mIBU instance
(as a bound call would supply) or a plain number (what the source's call
site actually passes in that slot). -/
inductive SelfArg where
  | obj : mIBU → SelfArg
  | num : ℝ → SelfArg

/-- Python attribute access self.b as performed inside the body of
mIBU.mIBU_rate_correction: succeeds on an mIBU instance and raises
AttributeError on a plain number. -/
def SelfArg.attr_b : SelfArg → Except PyErr ℝ
  | SelfArg.obj m => Except.ok m.b
  | SelfArg.num _ => Except.error PyErr.attributeError

namespace mIBU

/-- From src/MegaBeer/calculation/hops/iso_time.py, mIBU.calculate_b:
eff_area = sqrt(surface_area * open_area);
returns 2.925e-4 * eff_area / volume + 5.38e-3. -/
def calculate_b (surface_area open_area volume : ℝ) : ℝ :=
  let eff_area := Real.sqrt (surface_area * open_area)
  2.925e-4 * eff_area / volume + 5.38e-3

/-- From src/MegaBeer/calculation/hops/iso_time.py, mIBU.__init__ (defaults
max_u = 0.241, r = 0.04 are passed explicitly by callers here):
stores the geometry and precomputes b via calculate_b. -/
def init (surface_area open_area volume max_u r : ℝ) : mIBU :=
  ⟨surface_area, open_area, volume, calculate_b surface_area open_area volume,
    max_u, r⟩

/-- From src/MegaBeer/calculation/hops/iso_time.py, mIBU.change_b:
if type(b) is float, the field b is overwritten and True is returned;
otherwise a ValueError is raised and the object is untouched.  The state is
passed explicitly: the second component is the object after the call. -/
def change_b (self : mIBU) (b : PyVal) : Except PyErr Bool × mIBU :=
  match b with
  | PyVal.pyFloat x =>
      (Except.ok true,
       ⟨self.surface_area, self.open_area, self.volume, x, self.max_u, self.r⟩)
  | _ => (Except.error PyErr.invalidInput, self)

/-- From src/MegaBeer/calculation/hops/iso_time.py, mIBU.mIBU_rate_correction:
the pure formula of the method body as a function of the method's time
parameter t and an attribute value b,
c1 * exp(-c2 / (c3 * exp(-b * t) + c4)) with c1 = 2.39e11, c2 = 9773,
c3 = 53.7, c4 = 319.95. -/
def mIBU_rate_correction (t b : ℝ) : ℝ :=
  let c1 : ℝ := 2.39e11
  let c2 : ℝ := 9773
  let c3 : ℝ := 53.7
  let c4 : ℝ := 319.95
  c1 * Real.exp (-c2 / (c3 * Real.exp (-b * t) + c4))

/-- From src/MegaBeer/calculation/hops/iso_time.py, mIBU.mIBU_rate_correction
as declared: an instance method def mIBU_rate_correction(self, t) (there is
no staticmethod decorator) whose body reads self.b.  Called unbound through
the class, its self slot takes whatever the call site passes; the body's
self.b attribute access fails when that value is a plain number. -/
def mIBU_rate_correction_method (self : SelfArg) (t : ℝ) : Except PyErr ℝ :=
  (SelfArg.attr_b self).map (fun b => mIBU_rate_correction t b)

/-- From src/MegaBeer/calculation/hops/iso_time.py, mIBU.mIBU, scalar-time
path: np.where on the scalar mask t >= t_cool becomes a conditional, and
scipy quad over a bounded interval becomes the interval integral.  The
cooling integrand in the source is
lambda x: tinseth_rate(x) * mIBU.mIBU_rate_correction(t, self.b):
an unbound instance-method call whose self slot receives the numeric outer
time t and whose t slot receives the stored b, so every evaluation of the
integrand (quad evaluates it whatever the mask says) raises AttributeError
at the body's self.b access, and the method propagates that error.  The ok
branch below is reachable only if the correction call succeeds — which a
numeric self never allows — and records the sum the remaining arithmetic
would then produce (the correction value constant in the integration
variable, as at the source call site); the quad result tuple is idealized
to the integral's value in that unreachable branch.  t_boil is accepted but
unused, as in the source. -/
def mIBU (self : mIBU) (t t_boil t_cool : ℝ) : Except PyErr ℝ :=
  let t_mask := t ≥ t_cool
  let boil_util := if t_mask then TinsethTime.tinseth self.max_u self.r t else 0
  match mIBU_rate_correction_method (SelfArg.num t) self.b with
  | Except.error e => Except.error e
  | Except.ok corr =>
      let cool_rate : ℝ → ℝ := fun x =>
        TinsethTime.tinseth_rate self.max_u self.r x * corr
      let cool_util :=
        if t_mask then ∫ x in (0 : ℝ)..t_cool, cool_rate x
        else ∫ x in (t_cool - t)..t_cool, cool_rate x
      Except.ok (boil_util + cool_util)

end mIBU

/-- From src/MegaBeer/units.py, nochange. -/
def nochange (x : ℝ) : ℝ := x

/-- From src/MegaBeer/units.py, orderchange: f(x) = 10**order * x. -/
def orderchange (x order : ℝ) : ℝ :=
  (10 : ℝ) ^ order * x

/-- From src/MegaBeer/units.py, class Units: the eight conversion functions
stored at construction, in the constructor's argument order. -/
structure Units where
  mass : ℝ → ℝ
  length : ℝ → ℝ
  volume : ℝ → ℝ
  temperature : ℝ → ℝ
  mass_back : ℝ → ℝ
  length_back : ℝ → ℝ
  volume_back : ℝ → ℝ
  temperature_back : ℝ → ℝ

namespace Units

/-- From src/MegaBeer/units.py, Units.convert_mass. -/
def convert_mass (self : Units) (m : ℝ) : ℝ := self.mass m

/-- From src/MegaBeer/units.py, Units.convert_mass_back. -/
def convert_mass_back (self : Units) (m : ℝ) : ℝ := self.mass_back m

/-- From src/MegaBeer/units.py, Units.convert_volume. -/
def convert_volume (self : Units) (v : ℝ) : ℝ := self.volume v

/-- From src/MegaBeer/units.py, Units.convert_volume_back. -/
def convert_volume_back (self : Units) (v : ℝ) : ℝ := self.volume_back v

/-- From src/MegaBeer/units.py, Units.convert_temperature. -/
def convert_temperature (self : Units) (T : ℝ) : ℝ := self.temperature T

/-- From src/MegaBeer/units.py, Units.convert_temperature_back. -/
def convert_temperature_back (self : Units) (T : ℝ) : ℝ := self.temperature_back T

end Units

/-- From src/MegaBeer/units.py, class Metric: all eight functions nochange. -/
def Metric : Units :=
  ⟨nochange, nochange, nochange, nochange,
   nochange, nochange, nochange, nochange⟩

/-- From src/MegaBeer/units.py, class MetricGrams: mass forward is
orderchange with order 3, mass backward is orderchange with order -3, all
other functions nochange. -/
def MetricGrams : Units :=
  ⟨fun x => orderchange x 3, nochange, nochange, nochange,
   fun x => orderchange x (-3), nochange, nochange, nochange⟩

/-- From src/MegaBeer/datatypes.py, class DBObject: records the
ingredient-type tag set at construction. -/
structure DBObject where
  ingred_type : String

/-- From src/MegaBeer/datatypes.py, class Hop: alpha-acid fraction AA, an
optional name, and the inherited ingredient-type tag. -/
structure Hop extends DBObject where
  AA : ℝ
  name : Option String

/-- From src/MegaBeer/datatypes.py, Hop.__init__: stores AA and name as
given and calls the DBObject constructor with the literal tag "hop". -/
def Hop.init (AA : ℝ) (name : Option String) : Hop :=
  ⟨⟨"hop"⟩, AA, name⟩

end

/-
Theorems.  Helper lemmas come first; each claim's theorem carries a doc
comment naming the claim.
-/

/-- Cancellation of a power-of-ten order change against its opposite. -/
theorem orderchange_inverse (a x : ℝ) : orderchange (orderchange x a) (-a) = x := by
  simp only [orderchange]
  rw [← mul_assoc, ← Real.rpow_add (by norm_num : (0:ℝ) < 10)]
  norm_num [Real.rpow_zero]

/-- C1: the Newton-cooling code evaluated at the failing input t = 0,
T0 = 20, Ti = 100, tau = 1 returns -60, not the initial temperature
Ti = 100 the claim requires: the source computes T0 + (T0 - Ti)·exp(-t/tau),
so T(0) = 2·T0 - Ti. -/
theorem newton_cooling_T_at_zero :
    NewtonCooling.T 0 20 100 1 = -60 ∧ ((-60 : ℝ) ≠ 100) := by
  constructor
  · norm_num [NewtonCooling.T, Real.exp_zero]
  · norm_num

/-- C6: arrhenius returns A · exp(-E0 / ((T + 272.15) · R)) with
R = 8.3145, using the literal offset 272.15. -/
theorem arrhenius_spec (T E0 A : ℝ) :
    arrhenius T E0 A = A * Real.exp (-(E0 / ((T + 272.15) * 8.3145))) := by
  simp only [arrhenius]
  rw [div_div, neg_div]

/-- C8 counterexample: the Hop constructor accepts a negative alpha-acid
fraction, so the constructed record's AA is negative, refuting the claim
that every constructed Hop has a nonnegative alpha-acid fraction. -/
theorem hop_negative_AA_counterexample :
    (Hop.init (-1) none).AA < 0 ∧ (Hop.init (-1) none).ingred_type = "hop" := by
  constructor
  · norm_num [Hop.init]
  · rfl

/-- C8 (amended): every constructed Hop record carries the ingredient-type
tag "hop", and stores the supplied alpha-acid fraction and name exactly as
given, with no validation. -/
theorem hop_construction_spec (a : ℝ) (nm : Option String) :
    (Hop.init a nm).ingred_type = "hop" ∧ (Hop.init a nm).AA = a ∧
      (Hop.init a nm).name = nm :=
  ⟨rfl, rfl, rfl⟩

/-- C4: the Rager gravity factor equals 1 when G < 1.05 and
1 / (1 + 5·(G - 1.05)) otherwise, on both the scalar and the elementwise
array path; in particular it is exactly 1 for G < 1.05 and equals 1/1.05 at
G = 1.06. -/
theorem rager_spec (G : ℝ) :
    (G < 1.05 → GravityFactor.rager G = 1 ∧ GravityFactor.rager_arr G = 1) ∧
    (1.05 ≤ G →
      GravityFactor.rager G = 1 / (1 + 5 * (G - 1.05)) ∧
      GravityFactor.rager_arr G = 1 / (1 + 5 * (G - 1.05))) ∧
    GravityFactor.rager 1.06 = 1 / 1.05 ∧
    GravityFactor.rager_arr 1.06 = 1 / 1.05 := by
  refine ⟨fun h => ⟨?_, ?_⟩, fun h => ⟨?_, ?_⟩, ?_, ?_⟩
  · simp [GravityFactor.rager, h]
  · simp [GravityFactor.rager_arr, ge_iff_le, not_le.mpr h]
  · simp [GravityFactor.rager, GravityFactor.rager_u, not_lt.mpr h]
  · simp [GravityFactor.rager_arr, GravityFactor.rager_u, ge_iff_le, h]
  · have h6 : ¬ ((1.06 : ℝ) < 1.05) := by norm_num
    simp only [GravityFactor.rager, GravityFactor.rager_u, if_neg h6]
    norm_num
  · have h6 : (1.06 : ℝ) ≥ 1.05 := by norm_num
    simp only [GravityFactor.rager_arr, GravityFactor.rager_u, if_pos h6]
    norm_num

/-- C4 witness: the two branch hypotheses of rager_spec discharged at the
concrete gravities G = 1 and G = 1.06. -/
theorem rager_spec_witness :
    ((1 : ℝ) < 1.05 ∧ GravityFactor.rager 1 = 1 ∧ GravityFactor.rager_arr 1 = 1) ∧
    ((1.05 : ℝ) ≤ 1.06 ∧
      GravityFactor.rager 1.06 = 1 / (1 + 5 * ((1.06 : ℝ) - 1.05)) ∧
      GravityFactor.rager_arr 1.06 = 1 / (1 + 5 * ((1.06 : ℝ) - 1.05))) :=
  ⟨⟨by norm_num, (rager_spec 1).1 (by norm_num)⟩,
   ⟨by norm_num, (rager_spec 1.06).2.1 (by norm_num)⟩⟩

/-- C10: the scalar path and the elementwise array path of the Rager
gravity factor agree at every gravity G, and at the boundary G = 1.05 both
return exactly 1. -/
theorem rager_scalar_array_equiv :
    (∀ G : ℝ, GravityFactor.rager G = GravityFactor.rager_arr G) ∧
    GravityFactor.rager 1.05 = 1 ∧ GravityFactor.rager_arr 1.05 = 1 := by
  refine ⟨fun G => ?_, ?_, ?_⟩
  · by_cases h : G < 1.05
    · simp [GravityFactor.rager, GravityFactor.rager_arr, ge_iff_le, h, not_le.mpr h]
    · simp [GravityFactor.rager, GravityFactor.rager_arr, ge_iff_le, h, not_lt.mp h]
  · have h5 : ¬ ((1.05 : ℝ) < 1.05) := by norm_num
    simp only [GravityFactor.rager, GravityFactor.rager_u, if_neg h5]
    norm_num
  · have h5 : (1.05 : ℝ) ≥ 1.05 := le_refl _
    simp only [GravityFactor.rager_arr, GravityFactor.rager_u, if_pos h5]
    norm_num

/-- C3: order_n evaluates to A0·exp(-k·t) at n = 1, and to
(A0^g - g·k·t)^(1/g) with g = 1 - n at n ≠ 1 under the precondition
A0^g - g·k·t ≥ 0; the wrappers order_zero, order_one, order_two equal
order_n at n = 0, 1, 2. -/
theorem order_n_spec (n : ℤ) (k A0 t : ℝ) (hn : n ≠ 1)
    (hdom : 0 ≤ A0 ^ ((1 : ℝ) - (n : ℝ)) - ((1 : ℝ) - (n : ℝ)) * k * t) :
    RateEquations.order_n 1 k A0 t = A0 * Real.exp (-(k * t)) ∧
    RateEquations.order_n n k A0 t =
      (A0 ^ ((1 : ℝ) - (n : ℝ)) - ((1 : ℝ) - (n : ℝ)) * k * t) ^
        ((1 : ℝ) / ((1 : ℝ) - (n : ℝ))) ∧
    RateEquations.order_zero k A0 t = RateEquations.order_n 0 k A0 t ∧
    RateEquations.order_one k A0 t = RateEquations.order_n 1 k A0 t ∧
    RateEquations.order_two k A0 t = RateEquations.order_n 2 k A0 t := by
  refine ⟨?_, ?_, rfl, rfl, rfl⟩
  · simp [RateEquations.order_n, neg_mul]
  · simp [RateEquations.order_n, hn]

/-- C3 witness: order_n_spec applied at n = 0, k = 1, A0 = 2, t = 1, where
the domain precondition 0 ≤ 2^1 - 1 holds. -/
theorem order_n_spec_witness :
    ((0 : ℤ) ≠ 1) ∧
    (0 ≤ (2 : ℝ) ^ ((1 : ℝ) - ((0 : ℤ) : ℝ)) -
      ((1 : ℝ) - ((0 : ℤ) : ℝ)) * 1 * 1) ∧
    (RateEquations.order_n 1 1 2 1 = 2 * Real.exp (-(1 * 1)) ∧
     RateEquations.order_n 0 1 2 1 =
       ((2 : ℝ) ^ ((1 : ℝ) - ((0 : ℤ) : ℝ)) -
         ((1 : ℝ) - ((0 : ℤ) : ℝ)) * 1 * 1) ^
         ((1 : ℝ) / ((1 : ℝ) - ((0 : ℤ) : ℝ))) ∧
     RateEquations.order_zero 1 2 1 = RateEquations.order_n 0 1 2 1 ∧
     RateEquations.order_one 1 2 1 = RateEquations.order_n 1 1 2 1 ∧
     RateEquations.order_two 1 2 1 = RateEquations.order_n 2 1 2 1) :=
  ⟨by decide, by norm_num [Real.rpow_one],
   order_n_spec 0 1 2 1 (by decide) (by norm_num [Real.rpow_one])⟩

/-- C7: for the metric-grams descriptor the mass conversions (multiply by
10^3 forward, by 10^-3 backward) are inverses on positive masses, and every
forward/backward pair of both provided descriptors (MetricGrams and Metric)
is a pair of inverses. -/
theorem units_inverse_spec (m : ℝ) (hm : 0 < m) :
    Units.convert_mass_back MetricGrams (Units.convert_mass MetricGrams m) = m ∧
    Units.convert_mass MetricGrams (Units.convert_mass_back MetricGrams m) = m ∧
    (∀ x : ℝ,
      Units.convert_volume_back MetricGrams (Units.convert_volume MetricGrams x) = x ∧
      Units.convert_temperature_back MetricGrams
        (Units.convert_temperature MetricGrams x) = x ∧
      Units.length_back MetricGrams (Units.length MetricGrams x) = x ∧
      Units.convert_mass_back Metric (Units.convert_mass Metric x) = x ∧
      Units.convert_volume_back Metric (Units.convert_volume Metric x) = x ∧
      Units.convert_temperature_back Metric
        (Units.convert_temperature Metric x) = x ∧
      Units.length_back Metric (Units.length Metric x) = x) := by
  refine ⟨?_, ?_, fun x => ⟨rfl, rfl, rfl, rfl, rfl, rfl, rfl⟩⟩
  · exact orderchange_inverse 3 m
  · have h := orderchange_inverse (-3) m
    rw [neg_neg] at h
    exact h

/-- C7 witness: units_inverse_spec applied at the concrete mass m = 2. -/
theorem units_inverse_spec_witness :
    (0 : ℝ) < 2 ∧
    Units.convert_mass_back MetricGrams (Units.convert_mass MetricGrams 2) = 2 :=
  ⟨by norm_num, (units_inverse_spec 2 (by norm_num)).1⟩

/-- C9: change_b succeeds, stores the replacement in the b field and
returns True exactly when the replacement is a float value; on any
non-float it fails with the InvalidInput error and leaves every field of
the model unchanged. -/
theorem change_b_spec (m : mIBU) (v : PyVal) (hv : isFloat v = false) :
    (∀ x : ℝ, mIBU.change_b m (PyVal.pyFloat x) =
      (Except.ok true,
        ⟨m.surface_area, m.open_area, m.volume, x, m.max_u, m.r⟩)) ∧
    mIBU.change_b m v = (Except.error PyErr.invalidInput, m) := by
  refine ⟨fun x => rfl, ?_⟩
  cases v with
  | pyFloat x => simp [isFloat] at hv
  | pyInt n => rfl
  | pyStr s => rfl
  | pyNone => rfl

/-- C9 witness: change_b_spec applied to a concrete model and the non-float
replacement 3 (an integer), which fails and preserves the model. -/
theorem change_b_spec_witness :
    isFloat (PyVal.pyInt 3) = false ∧
    mIBU.change_b (mIBU.init 300 150 20 0.241 0.04) (PyVal.pyInt 3) =
      (Except.error PyErr.invalidInput, mIBU.init 300 150 20 0.241 0.04) :=
  ⟨rfl, (change_b_spec (mIBU.init 300 150 20 0.241 0.04) (PyVal.pyInt 3) rfl).2⟩

/-- C5: the Tinseth temporal utilization with max_u = 0.241 and r = 0.04 is
monotonically increasing on t ≥ 0, bounded above by max_u on t ≥ 0, equals
0 exactly at t = 0, and tends to 0.241 as t tends to infinity. -/
theorem tinseth_time_spec :
    (∀ s t : ℝ, 0 ≤ s → s ≤ t →
      TinsethTime.tinseth 0.241 0.04 s ≤ TinsethTime.tinseth 0.241 0.04 t) ∧
    (∀ t : ℝ, 0 ≤ t → TinsethTime.tinseth 0.241 0.04 t ≤ 0.241) ∧
    TinsethTime.tinseth 0.241 0.04 0 = 0 ∧
    Filter.Tendsto (TinsethTime.tinseth 0.241 0.04) Filter.atTop
      (nhds 0.241) := by
  refine ⟨?_, ?_, ?_, ?_⟩
  · intro s t hs hst
    simp only [TinsethTime.tinseth]
    have h := Real.exp_le_exp.mpr (by linarith : -(0.04 : ℝ) * t ≤ -(0.04 : ℝ) * s)
    nlinarith
  · intro t ht
    simp only [TinsethTime.tinseth]
    have h := Real.exp_pos (-(0.04 : ℝ) * t)
    nlinarith
  · simp [TinsethTime.tinseth]
  · have h1 : Filter.Tendsto (fun t : ℝ => (0.04 : ℝ) * t) Filter.atTop
        Filter.atTop :=
      Filter.Tendsto.const_mul_atTop (by norm_num) Filter.tendsto_id
    have h2 : Filter.Tendsto (fun t : ℝ => Real.exp (-(0.04 * t)))
        Filter.atTop (nhds 0) :=
      Real.tendsto_exp_neg_atTop_nhds_zero.comp h1
    have h3 : Filter.Tendsto
        (fun t : ℝ => (0.241 : ℝ) * (1 - Real.exp (-(0.04 * t))))
        Filter.atTop (nhds ((0.241 : ℝ) * (1 - 0))) :=
      (tendsto_const_nhds.sub h2).const_mul _
    have hfun : TinsethTime.tinseth 0.241 0.04 =
        fun t : ℝ => (0.241 : ℝ) * (1 - Real.exp (-(0.04 * t))) := by
      funext t
      simp [TinsethTime.tinseth, neg_mul]
    rw [hfun]
    convert h3 using 2
    norm_num

/-- C5 witness: tinseth_time_spec applied at the concrete times 0 and 1. -/
theorem tinseth_time_spec_witness :
    (0 : ℝ) ≤ 0 ∧ (0 : ℝ) ≤ 1 ∧
    TinsethTime.tinseth 0.241 0.04 0 ≤ TinsethTime.tinseth 0.241 0.04 1 ∧
    TinsethTime.tinseth 0.241 0.04 1 ≤ 0.241 :=
  ⟨le_refl 0, by norm_num,
   tinseth_time_spec.1 0 1 (le_refl 0) (by norm_num),
   tinseth_time_spec.2.1 1 (by norm_num)⟩

/-- C2: the object-oriented combined mIBU evaluation never returns the
claimed boil-plus-cooling sum: its cooling integrand calls the instance
method mIBU_rate_correction unbound with the numeric time t in the self
slot, so the self.b attribute access raises AttributeError on every call —
shown here at the concrete input t = 60, t_boil = 60, t_cool = 20 with
geometry (300, 150, 20) and the defaults max_u = 0.241, r = 0.04, and for
every input. -/
theorem mIBU_attribute_error :
    mIBU.mIBU (mIBU.init 300 150 20 0.241 0.04) 60 60 20 =
      Except.error PyErr.attributeError ∧
    ∀ (self : mIBU) (t t_boil t_cool : ℝ),
      mIBU.mIBU self t t_boil t_cool = Except.error PyErr.attributeError :=
  ⟨rfl, fun self t t_boil t_cool => rfl⟩

end MegaBeer
